import Mathlib

/-!
Shallow embedding of the core of the Climate Action Intelligence Platform
(`backend/data_processors/impact_tracker.py`, `backend/rag_system/climate_rag.py`,
`backend/watsonx_integration/watsonx_client.py`, `climate-rag-app/backend/rag_system.py`,
`climate-rag-app/backend/document_processor.py`), together with theorems settling the
frozen specification claims.

Modelling conventions:
* Python floats are idealised as exact rationals (`ℚ`); `round(x, d)` is Python's
  round-half-to-even on the decimal value, modelled by `roundTo d`.
* SQLite persistence is modelled as an in-memory list of records ("the ledger");
  the SQL `GROUP BY action_type` of `get_user_impact_summary` is modelled by
  grouping on the first-occurrence-ordered list of distinct action types.
  The SQL `ORDER BY total_co2 DESC` only affects the presentation order of the
  per-type breakdown list and is not modelled.
* Exceptions that can only originate in the persistence layer or in external
  collaborators (SQLite, Chroma, the IBM model host) are modelled explicitly as
  `Except`/`Option` parameters where a claim depends on them, and are otherwise
  out of scope; the Python functions' own control flow (including `try/except`
  fallback arms) is translated faithfully.
-/

/-! ## Rounding

`roundHalfEven` is Python's `round` to an integer: nearest integer, ties to the
even neighbour.  `roundTo d x` is Python's `round(x, d)` on the exact value. -/

def roundHalfEven (x : ℚ) : ℤ :=
  let n := x.floor
  let f := x - n
  if f < 1/2 then n
  else if 1/2 < f then n + 1
  else if n % 2 = 0 then n else n + 1

def roundTo (d : Nat) (x : ℚ) : ℚ :=
  ((roundHalfEven (x * 10 ^ d) : ℤ) : ℚ) / 10 ^ d

/-- A rational is a `d`-decimal value: an integer multiple of `10 ^ (-d)`. -/
def IsRound (d : Nat) (x : ℚ) : Prop := ∃ m : ℤ, x = (m : ℚ) / 10 ^ d

/-! ## String helpers

`strContains s pat` models Python's `pat in s` (substring containment);
`strLower` models `str.lower()` (per-character lowering). -/

def listPrefixMatch : List Char → List Char → Bool
  | [], _ => true
  | _ :: _, [] => false
  | a :: as, b :: bs => a = b && listPrefixMatch as bs

def listContainsSub : List Char → List Char → Bool
  | [], pat => pat.isEmpty
  | h :: t, pat => listPrefixMatch pat (h :: t) || listContainsSub t pat

def strContains (s pat : String) : Bool := listContainsSub s.data pat.data

def strLower (s : String) : String := ⟨s.data.map Char.toLower⟩

/-- Distinct elements of a list of keys, keeping the first occurrence of each,
as produced by SQL `GROUP BY` over the stored rows (auxiliary, with an
accumulator of keys already emitted). -/
def dedupKeysAux (seen : List String) : List String → List String
  | [] => []
  | k :: ks => if k ∈ seen then dedupKeysAux seen ks else k :: dedupKeysAux (k :: seen) ks

def dedupKeys (l : List String) : List String := dedupKeysAux [] l

/-! ## Impact tracker (`backend/data_processors/impact_tracker.py`) -/

/-- The static impact factor table `ImpactTracker.impact_factors`
(kg CO2 equivalent per unit; negative = reduction). -/
def impact_factors : List (String × ℚ) := [
  ("led_bulb_replacement", 1/2),
  ("thermostat_adjustment", 3/10),
  ("car_trip_avoided", 2/5),
  ("public_transport_use", -(3/10)),
  ("bike_trip", -(2/5)),
  ("solar_panel_kwh", -(2/5)),
  ("energy_efficient_appliance", 2),
  ("tree_planted", -22),
  ("composting", -(1/2)),
  ("meat_free_meal", -(9/10)),
  ("local_food_purchase", -(1/5)),
  ("water_conservation", 1/10),
  ("recycling", -(3/10)),
  ("renewable_energy_switch", -(18/5)),
  ("insulation_upgrade", -(23/10)),
  ("electric_vehicle", -2400)]

structure Impact where
  co2_impact : ℚ
  energy_impact : ℚ
  water_impact : ℚ
  waste_impact : ℚ
deriving Repr, DecidableEq

/-- `ImpactTracker._calculate_impact`: look up the action type's base factor
(`self.impact_factors.get(action_type, 0.0)`), set `co2 = base_factor * quantity`,
derive heuristic energy/water/waste estimates from substring tests on the action
type, and round every output to 3 decimal places.  Total by construction: the
Python body can raise no exception. -/
def calculate_impact (action_type : String) (quantity : ℚ) : Impact :=
  let base_factor := (impact_factors.lookup action_type).getD 0
  let co2_impact := base_factor * quantity
  let energy_impact : ℚ :=
    if strContains action_type "energy" || strContains action_type "solar" ||
        strContains action_type "led" then |co2_impact| * (5/2) else 0
  let water_impact : ℚ :=
    if strContains action_type "water" || strContains action_type "conservation" then
      quantity * 10 else 0
  let waste_impact : ℚ :=
    if strContains action_type "recycling" || strContains action_type "composting" then
      quantity * (1/2) else 0
  { co2_impact := roundTo 3 co2_impact
    energy_impact := roundTo 3 energy_impact
    water_impact := roundTo 3 water_impact
    waste_impact := roundTo 3 waste_impact }

/-- The wording tier of the encouragement message of
`ImpactTracker._generate_impact_message`.  Each constructor is one of the four
return branches of the source: "Great job taking action ... Every action counts.",
"Nice! Your ... saved ...", "Excellent! Your ... saved ...", and
"Amazing impact! Your ... saved ...".  The interpolated numerals of the f-strings
(float presentation) are abstracted; the claims concern only the tier. -/
inductive ImpactTier where
  | everyActionCounts
  | nice
  | excellent
  | amazing
deriving Repr, DecidableEq

/-- Branch structure of `ImpactTracker._generate_impact_message`: the tier is
selected from the absolute value of the computed CO2 impact. -/
def generate_impact_message_tier (impact : Impact) : ImpactTier :=
  let co2_impact := |impact.co2_impact|
  if co2_impact = 0 then .everyActionCounts
  else if co2_impact < 1 then .nice
  else if co2_impact < 10 then .excellent
  else .amazing

/-- A row of the `actions` table. -/
structure ActionRecord where
  user_id : String
  action_type : String
  description : Option String
  quantity : ℚ
  unit : String
  co2_impact : ℚ
  energy_impact : ℚ
  water_impact : ℚ
  waste_impact : ℚ
  location : Option String
  timestamp : ℤ
deriving Repr, DecidableEq

/-- The dictionary returned by `ImpactTracker.track_action` on its success path
(`message` abstracted to its wording tier, see `ImpactTier`). -/
structure TrackResult where
  action_id : Nat
  action_type : String
  quantity : ℚ
  unit : String
  impact : Impact
  timestamp : ℤ
  message_tier : ImpactTier
deriving Repr, DecidableEq

/-- `ImpactTracker.track_action`: compute the impact, insert a row into the
`actions` table (modelled as appending to the ledger, with the SQLite rowid
`ledger.length + 1`), and return the result dictionary.  The source performs no
input validation whatsoever; its `except` arm can only be reached by failures of
the persistence layer, which is out of model, so the function is total here.
The `_update_user_metrics` side effect maintains the separate `user_metrics`
rolling-aggregate table, which no claim touches, and is not modelled. -/
def track_action (ledger : List ActionRecord) (user_id action_type : String)
    (quantity : ℚ) (unit : String) (location description : Option String)
    (now : ℤ) : List ActionRecord × TrackResult :=
  let impact := calculate_impact action_type quantity
  let record : ActionRecord :=
    { user_id, action_type, description, quantity, unit
      co2_impact := impact.co2_impact, energy_impact := impact.energy_impact
      water_impact := impact.water_impact, waste_impact := impact.waste_impact
      location, timestamp := now }
  (ledger ++ [record],
   { action_id := ledger.length + 1, action_type, quantity, unit, impact
     timestamp := now, message_tier := generate_impact_message_tier impact })

/-- The `equivalent_impact` dictionary of `ImpactTracker._calculate_equivalents`. -/
structure Equivalents where
  trees_equivalent : ℚ
  car_miles_avoided : ℚ
  lightbulb_hours : ℚ
  smartphone_charges : ℚ
  plastic_bottles_recycled : ℚ
deriving Repr, DecidableEq

/-- `ImpactTracker._calculate_equivalents`: equivalents are computed from the
absolute value of the CO2 total, with the source's fixed constants
(22 kg/tree-year, 0.4 kg/mile, 0.0005 kg/bulb-hour, 0.008 kg/charge,
0.03 kg/bottle). -/
def calculate_equivalents (co2_kg : ℚ) : Equivalents :=
  let c := |co2_kg|
  { trees_equivalent := roundTo 1 (c / 22)
    car_miles_avoided := roundTo 1 (c / (2/5))
    lightbulb_hours := roundTo 0 (c / (5/10000))
    smartphone_charges := roundTo 0 (c / (8/1000))
    plastic_bottles_recycled := roundTo 0 (c / (3/100)) }

/-- One row of the per-action-type breakdown of `get_user_impact_summary`
(one `GROUP BY action_type` aggregate row, each sum rounded to 3 decimals). -/
structure ActionGroupSummary where
  action_type : String
  count : Nat
  co2_impact : ℚ
  energy_impact : ℚ
  water_impact : ℚ
  waste_impact : ℚ
deriving Repr, DecidableEq

/-- The `total_impact` dictionary of `get_user_impact_summary`. -/
structure TotalImpact where
  co2_saved_kg : ℚ
  energy_saved_kwh : ℚ
  water_saved_gallons : ℚ
  waste_diverted_kg : ℚ
deriving Repr, DecidableEq

/-- The summary dictionary returned by `ImpactTracker.get_user_impact_summary`. -/
structure ImpactSummary where
  user_id : String
  total_actions : Nat
  total_impact : TotalImpact
  actions_breakdown : List ActionGroupSummary
  equivalent_impact : Equivalents
deriving Repr, DecidableEq

/-- The SQL row filter of `get_user_impact_summary`:
`WHERE user_id = ? AND timestamp >= ?`. -/
def inPeriod (user_id : String) (start : ℤ) (r : ActionRecord) : Bool :=
  decide (r.user_id = user_id ∧ start ≤ r.timestamp)

/-- The rows of one `GROUP BY action_type` group. -/
def group_for (l : List ActionRecord) (k : String) : List ActionRecord :=
  l.filter (fun r => r.action_type == k)

/-- One aggregate row of the `GROUP BY action_type` query, with each impact sum
rounded to 3 decimals as in the source (`round(row[i] or 0, 3)`). -/
def groupSummary (l : List ActionRecord) (k : String) : ActionGroupSummary :=
  let g := group_for l k
  { action_type := k
    count := g.length
    co2_impact := roundTo 3 (g.map (·.co2_impact)).sum
    energy_impact := roundTo 3 (g.map (·.energy_impact)).sum
    water_impact := roundTo 3 (g.map (·.water_impact)).sum
    waste_impact := roundTo 3 (g.map (·.waste_impact)).sum }

/-- The rows scanned by `get_user_impact_summary`:
`WHERE user_id = ? AND timestamp >= ?` over the ledger. -/
def summaryFiltered (ledger : List ActionRecord) (user_id : String) (start : ℤ) :
    List ActionRecord :=
  ledger.filter (inPeriod user_id start)

/-- The distinct action types of the scanned rows (`GROUP BY action_type`). -/
def summaryKeys (ledger : List ActionRecord) (user_id : String) (start : ℤ) : List String :=
  dedupKeys ((summaryFiltered ledger user_id start).map (·.action_type))

/-- The per-action-type aggregate rows of `get_user_impact_summary`. -/
def summaryBreakdown (ledger : List ActionRecord) (user_id : String) (start : ℤ) :
    List ActionGroupSummary :=
  (summaryKeys ledger user_id start).map (groupSummary (summaryFiltered ledger user_id start))

/-- The grand CO2 total of `get_user_impact_summary`: the sum of the per-group
rounded CO2 sums (`total_impact['co2'] += action_data['co2_impact']`). -/
def summaryTotalCo2 (ledger : List ActionRecord) (user_id : String) (start : ℤ) : ℚ :=
  ((summaryBreakdown ledger user_id start).map (·.co2_impact)).sum

/-- `ImpactTracker.get_user_impact_summary`: filter the ledger to the user's rows
in the period, aggregate per action type (each group sum rounded to 3 decimals),
add the rounded group values into grand totals, and report
`co2_saved_kg = round(abs(total_co2), 3)` (absolute value in the source!) plus
equivalents computed by `calculate_equivalents` from the signed total.
`start` is the cutoff instant `now - period_days`. -/
def get_user_impact_summary (ledger : List ActionRecord) (user_id : String)
    (start : ℤ) : ImpactSummary :=
  let filtered := summaryFiltered ledger user_id start
  let breakdown := summaryBreakdown ledger user_id start
  let total_co2 := summaryTotalCo2 ledger user_id start
  let total_energy := (breakdown.map (·.energy_impact)).sum
  let total_water := (breakdown.map (·.water_impact)).sum
  let total_waste := (breakdown.map (·.waste_impact)).sum
  { user_id
    total_actions := filtered.length
    total_impact :=
      { co2_saved_kg := roundTo 3 |total_co2|
        energy_saved_kwh := roundTo 3 total_energy
        water_saved_gallons := roundTo 3 total_water
        waste_diverted_kg := roundTo 3 total_waste }
    actions_breakdown := breakdown
    equivalent_impact := calculate_equivalents total_co2 }

/-- Negation of a record's CO2 impact (all other fields unchanged); used to
compare a net-emissions ledger with the corresponding net-savings ledger. -/
def negCo2 (r : ActionRecord) : ActionRecord := { r with co2_impact := -r.co2_impact }

/-- A row of the `goals` table. -/
structure Goal where
  goal_id : Nat
  user_id : String
  goal_type : String
  target_value : ℚ
  current_value : ℚ
  unit : String
  deadline : String
  status : String
deriving Repr, DecidableEq

/-- One entry of the list returned by `ImpactTracker.get_user_goals_progress`. -/
structure GoalProgress where
  goal_id : Nat
  goal_type : String
  target_value : ℚ
  current_value : ℚ
  unit : String
  deadline : String
  status : String
  progress_percentage : ℚ
deriving Repr, DecidableEq

/-- The derived progress of one goal row:
`round((current / target) * 100, 1) if target > 0 else 0`. -/
def goal_progress_percentage (current target : ℚ) : ℚ :=
  if 0 < target then roundTo 1 (current / target * 100) else 0

/-- `ImpactTracker.get_user_goals_progress`: the user's active goals with their
derived `progress_percentage`. -/
def get_user_goals_progress (goals : List Goal) (user_id : String) : List GoalProgress :=
  (goals.filter (fun g => g.user_id == user_id && g.status == "active")).map
    (fun g =>
      { goal_id := g.goal_id, goal_type := g.goal_type, target_value := g.target_value
        current_value := g.current_value, unit := g.unit, deadline := g.deadline
        status := g.status
        progress_percentage := goal_progress_percentage g.current_value g.target_value })

/-! ## Document processor (`climate-rag-app/backend/document_processor.py`) -/

/-- One section extracted from the README by
`ClimateDocumentProcessor.extract_sections` (title, raw content, header level).
The regex-based header splitting itself is presentation-layer text processing and
is not modelled; sections are taken as inputs. -/
structure DocSection where
  title : String
  content : String
  level : Nat
deriving Repr, DecidableEq

/-- Metadata attached to each produced chunk (`section` is called `section_name`
here because `section` is a Lean keyword; `type` is `doc_type`). -/
structure ChunkMetadata where
  source : String
  section_name : String
  level : Nat
  doc_type : String
  chunk_id : Option Nat
  total_chunks : Option Nat
deriving Repr, DecidableEq

/-- A LangChain `Document` as produced by the document processor. -/
structure LCDocument where
  page_content : String
  metadata : ChunkMetadata
deriving Repr, DecidableEq

/-- `ClimateDocumentProcessor._classify_section`: keyword classification of a
section title. -/
def classify_section (title : String) : String :=
  let t := strLower title
  if strContains t "overview" || strContains t "mission" || strContains t "project" then
    "overview"
  else if strContains t "technical" || strContains t "architecture" ||
      strContains t "implementation" then "technical"
  else if strContains t "setup" || strContains t "installation" ||
      strContains t "prerequisites" then "setup"
  else if strContains t "phase" || strContains t "step" || strContains t "development" then
    "implementation_guide"
  else if strContains t "demo" || strContains t "presentation" || strContains t "winning" then
    "demo"
  else if strContains t "features" || strContains t "components" then "features"
  else "general"

/-- The per-section body of `ClimateDocumentProcessor.create_documents`: a section
longer than `chunk_size` is split by the (external, langchain) text splitter
`split_text` and each piece receives `chunk_id`/`total_chunks` metadata; otherwise
the section is emitted as a single document, the splitter is not invoked. -/
def processSection (split_text : String → List String) (chunk_size : Nat)
    (s : DocSection) : List LCDocument :=
  let metadata : ChunkMetadata :=
    { source := "Climate Action Intelligence Platform README"
      section_name := s.title
      level := s.level
      doc_type := classify_section s.title
      chunk_id := none
      total_chunks := none }
  if chunk_size < s.content.length then
    let chunks := split_text s.content
    chunks.enum.map fun ic =>
      { page_content := ic.2
        metadata := { metadata with chunk_id := some ic.1, total_chunks := some chunks.length } }
  else
    [{ page_content := s.content, metadata }]

/-- `ClimateDocumentProcessor.create_documents` over the extracted sections
(default `chunk_size` in the source: 1000 characters). -/
def create_documents (split_text : String → List String) (chunk_size : Nat)
    (sections : List DocSection) : List LCDocument :=
  sections.flatMap (processSection split_text chunk_size)

/-! ## RAG system of the app variant (`climate-rag-app/backend/rag_system.py`) -/

/-- State of `ClimateRAGSystem` (app variant): the persisted Chroma collection
(`chroma.sqlite3` under `persist_directory`), the in-memory vectorstore handle,
and whether the retriever has been initialised.  Index contents are modelled as
the list of documents they hold; embeddings are performed by an external library
and add no information beyond the documents themselves. -/
structure AppRagState where
  persisted : Option (List LCDocument)
  vectorstore : Option (List LCDocument)
  retriever : Bool
deriving Repr, DecidableEq

/-- `ClimateRAGSystem.initialize_vectorstore` (app variant).  Returns the new
state plus a flag recording whether a (re)build happened.  If a persisted store
exists and `force_rebuild` is not set, the existing store is loaded unchanged
(no chunking, no embedding).  Otherwise the store is built from `documents`,
or from the README (`readme` sections put through `create_documents`) when no
documents are supplied; a missing README raises `FileNotFoundError`. -/
def initialize_vectorstore_app (split_text : String → List String) (chunk_size : Nat)
    (readme : Option (List DocSection)) (documents : Option (List LCDocument))
    (force_rebuild : Bool) (st : AppRagState) : Except String (AppRagState × Bool) :=
  if st.persisted.isSome && !force_rebuild then
    .ok ({ st with vectorstore := st.persisted, retriever := true }, false)
  else
    let docs? : Option (List LCDocument) :=
      match documents with
      | some d => some d
      | none => readme.map (create_documents split_text chunk_size)
    match docs? with
    | none => .error "FileNotFoundError: README file not found"
    | some docs =>
        .ok ({ persisted := some docs, vectorstore := some docs, retriever := true }, true)

/-! ## Backend RAG system (`backend/rag_system/climate_rag.py`) and
watsonx client (`backend/watsonx_integration/watsonx_client.py`) -/

/-- A LangChain `Document` of the backend corpus (metadata: `source`, `category`). -/
structure BDocument where
  page_content : String
  source : String
  category : String
deriving Repr, DecidableEq

/-- The seed corpus `ClimateRAGSystem._create_sample_climate_documents`.
The page contents are the source's triple-quoted literals; the Python block
indentation inside those literals is not reproduced. -/
def sample_climate_documents : List BDocument := [
  { page_content := "
Climate Change Mitigation Strategies:

1. Energy Efficiency: Improving energy efficiency in buildings can reduce CO2 emissions by 30-50%.
Key actions include LED lighting, smart thermostats, insulation, and energy-efficient appliances.

2. Renewable Energy: Solar panels can reduce household emissions by 3-4 tons CO2/year.
Wind energy is cost-effective for communities. Geothermal heating reduces emissions by 60%.

3. Transportation: Electric vehicles reduce emissions by 60-70% compared to gasoline cars.
Public transit, cycling, and walking are zero-emission alternatives. Carpooling reduces individual impact by 50%.
"
    source := "IPCC_AR6_Mitigation", category := "mitigation" },
  { page_content := "
Carbon Footprint Reduction for Households:

Average household carbon footprint: 16 tons CO2/year (US)

High-impact actions:
- Switch to renewable energy: -3.6 tons CO2/year
- Improve home insulation: -2.3 tons CO2/year
- Drive electric vehicle: -2.4 tons CO2/year
- Reduce meat consumption: -0.8 tons CO2/year
- Fly less frequently: -1.6 tons CO2/year per avoided round-trip

Medium-impact actions:
- Energy-efficient appliances: -0.5 tons CO2/year
- Smart thermostat: -0.3 tons CO2/year
- LED lighting: -0.1 tons CO2/year
"
    source := "EPA_Carbon_Calculator", category := "household" },
  { page_content := "
Business Climate Action Strategies:

Small and Medium Enterprises (SMEs) can reduce emissions through:

1. Energy Management:
- Energy audits identify 20-30% savings potential
- Smart building systems reduce consumption by 15-25%
- Renewable energy procurement cuts emissions by 40-60%

2. Supply Chain Optimization:
- Local sourcing reduces transport emissions by 30%
- Sustainable packaging cuts waste by 50%
- Circular economy practices reduce material footprint by 40%

3. Employee Engagement:
- Remote work reduces commute emissions by 70%
- Green commuting programs cut transport emissions by 25%
- Sustainability training increases participation by 60%
"
    source := "UN_Global_Compact", category := "business" },
  { page_content := "
Climate Finance and Incentives:

Government Incentives (US):
- Federal solar tax credit: 30% of installation cost
- Electric vehicle tax credit: up to $7,500
- Energy efficiency rebates: $500-$2,000 per upgrade
- Heat pump incentives: $2,000-$8,000

Green Financing Options:
- Green mortgages: 0.25-0.5% interest rate reduction
- Energy efficiency loans: 2-5% APR
- Solar financing: $0 down payment options
- Carbon offset markets: $10-$50 per ton CO2

Return on Investment:
- Solar panels: 6-10 year payback period
- Insulation: 2-5 year payback period
- Heat pumps: 5-8 year payback period
"
    source := "IEA_Energy_Finance", category := "finance" },
  { page_content := "
Community Climate Resilience:

Adaptation Strategies:
1. Urban Heat Island Reduction:
- Green roofs reduce building temperature by 2-8°F
- Tree planting lowers ambient temperature by 2-5°F
- Cool pavements reflect 50-80% more sunlight

2. Water Management:
- Rain gardens capture 90% of stormwater runoff
- Permeable pavements reduce flooding by 60%
- Greywater systems save 30-50% of water usage

3. Food Security:
- Community gardens increase local food access by 40%
- Urban farming reduces food miles by 90%
- Drought-resistant crops maintain yields with 30% less water

4. Emergency Preparedness:
- Early warning systems reduce climate disaster impacts by 30%
- Community resilience hubs provide 24/7 emergency support
"
    source := "UNDRR_Resilience_Guide", category := "adaptation" }]

/-- State of the backend `ClimateRAGSystem`: the persisted Chroma directory and
the in-memory vectorstore, each holding its (chunked) documents. -/
structure BackendRagState where
  persisted : Option (List BDocument)
  vectorstore : Option (List BDocument)
deriving Repr, DecidableEq

/-- Backend `ClimateRAGSystem.initialize_vectorstore`: load the persisted store
if one exists; otherwise chunk the given documents (the seed corpus when none, or
an empty list, is supplied — Python's falsy test `if not documents`), build the
store from the chunks and persist it.  `split` is the external langchain
`RecursiveCharacterTextSplitter.split_documents`.  The `except` arm
(`_create_minimal_vectorstore`) is reachable only through failures of the
external embedding/Chroma libraries, out of model. -/
def initialize_vectorstore_backend (split : List BDocument → List BDocument)
    (documents : Option (List BDocument)) (st : BackendRagState) : BackendRagState :=
  match st.persisted with
  | some idx => { st with vectorstore := some idx }
  | none =>
      let docs := match documents with
        | none => sample_climate_documents
        | some ds => if ds.isEmpty then sample_climate_documents else ds
      let chunks := split docs
      { vectorstore := some chunks, persisted := some chunks }

/-- Backend `ClimateRAGSystem.add_documents`: if no vectorstore exists yet,
`initialize_vectorstore()` is called first (no documents passed); then the new
documents are chunked, added to the store, and the store is persisted.  No
not-initialised error exists in the source; its `except` arm only logs. -/
def add_documents_backend (split : List BDocument → List BDocument)
    (documents : List BDocument) (st : BackendRagState) : BackendRagState :=
  let st1 := if st.vectorstore.isNone then initialize_vectorstore_backend split none st else st
  let chunks := split documents
  match st1.vectorstore with
  | some idx => { vectorstore := some (idx ++ chunks), persisted := some (idx ++ chunks) }
  | none => st1

/-- `WatsonXClient._clean_response`: an empty model response is replaced by a
fixed apology; otherwise the response is stripped and a short unterminated final
sentence fragment is dropped. -/
def clean_response (response : String) : String :=
  if response = "" then
    "I apologize, but I couldn't generate a response. Please try rephrasing your question."
  else
    let cleaned := response.trim
    let sentences := cleaned.splitOn ". "
    if sentences.length > 1 && (sentences.getLastD "").length < 20 &&
        !((sentences.getLastD "").endsWith ".") then
      String.intercalate ". " sentences.dropLast ++ "."
    else cleaned

/-- `WatsonXClient._generate_fallback_response`: the canned advisory used when
watsonx.ai is unavailable, selected by keyword tests on the context and the
lowered prompt.  The returned texts are the source's literals (Python block
indentation not reproduced). -/
def generate_fallback_response_wx (prompt context : String) : String :=
  let prompt_lower := strLower prompt
  if context ≠ "" && strContains (strLower context) "california" then "
🌟 **California-Specific Climate Recommendations:**

☀️ **Solar Energy (High Priority):**
- California has excellent solar potential (300+ sunny days/year)
- State rebates: California Solar Initiative + Federal Tax Credit (30%)
- Average savings: $1,200-2,000/year on electricity bills
- Payback period: 6-8 years

🚗 **Clean Transportation:**
- CA Clean Vehicle Rebate: Up to $7,000 for EVs
- ZEV program makes EVs more accessible
- HOV lane access for clean vehicles
- Extensive charging infrastructure

🏠 **Energy Efficiency:**
- CA Title 24 building standards support efficiency upgrades
- PACE financing available for home improvements
- Utility rebates for ENERGY STAR appliances

💰 **Financial Incentives:**
- Property tax exemption for solar installations
- Time-of-use rates favor solar + storage
- Net metering policies

Target: 30% reduction is achievable through solar (20%) + transportation (8%) + efficiency (2%+)
"
  else if strContains prompt_lower "carbon" || strContains prompt_lower "footprint" ||
      strContains prompt_lower "emissions" || strContains prompt_lower "30%" then
    "🎯 **Strategic Plan for 30% Carbon Reduction:**

**PHASE 1: Quick Wins (0-3 months) - 8% reduction**
- Switch to LED bulbs throughout home
- Adjust thermostat settings (68°F winter, 78°F summer)
- Seal air leaks around windows/doors
- Use power strips to eliminate phantom loads

**PHASE 2: Transportation (3-12 months) - 12% reduction**
- Combine trips and use efficient routes
- Work from home 2+ days/week if possible
- Consider carpooling or public transit
- Maintain vehicle properly (tire pressure, tune-ups)

**PHASE 3: Major Upgrades (6-18 months) - 10%+ reduction**
- Install programmable/smart thermostat
- Upgrade to high-efficiency appliances
- Consider solar panels or community solar
- Improve home insulation

📊 **Expected Impact:**
- Energy efficiency: 15-20% reduction
- Transportation changes: 8-15% reduction
- Renewable energy: 5-10% additional reduction
- **Total potential: 30-45% carbon footprint reduction**

💰 **Cost-Benefit:** Many actions save money long-term, with solar and efficiency upgrades paying for themselves in 5-10 years."
  else if strContains prompt_lower "business" || strContains prompt_lower "company" ||
      strContains prompt_lower "tech" || strContains prompt_lower "carbon neutral" then
    "🏢 **Tech Company Carbon Neutrality Roadmap:**

**YEAR 1: Foundation & Quick Wins**
🔍 **Assessment Phase (Months 1-3):**
- Comprehensive carbon audit (Scope 1, 2, 3 emissions)
- Baseline measurement: energy, travel, supply chain
- Set science-based targets aligned with 1.5°C pathway

⚡ **Energy Transition (Months 4-12):**
- Switch to renewable energy contracts (immediate 40-60% reduction)
- Upgrade to LED lighting and efficient equipment
- Implement smart building controls

**YEAR 2: Operations & Culture**
🚗 **Transportation & Remote Work:**
- Expand remote work policies (reduce commuting emissions)
- EV charging stations for employees
- Sustainable travel policy with carbon offsetting

♻️ **Operations:**
- Transition to cloud infrastructure (typically 65% more efficient)
- Implement circular IT practices (refurbish vs. replace)
- Green procurement standards

**YEAR 3: Supply Chain & Offsets**
🔗 **Supply Chain Engagement:**
- Work with suppliers on their carbon reduction
- Prioritize local and sustainable vendors
- Include carbon criteria in vendor selection

🌲 **Carbon Removal:**
- High-quality offset projects for remaining emissions
- Direct air capture or nature-based solutions
- Employee engagement programs

📈 **Expected Timeline to Carbon Neutrality:** 24-36 months
💰 **ROI:** Energy savings typically offset 60-80% of initial investments"
  else if strContains prompt_lower "renewable" || strContains prompt_lower "solar" ||
      strContains prompt_lower "wind" || strContains prompt_lower "energy" then
    "🔋 **Comprehensive Renewable Energy Guide:**

☀️ **Solar Energy Assessment:**
- **Residential potential:** 4-8 kW system typical for average home
- **Commercial potential:** 50-500 kW systems for businesses
- **Cost trends:** 85% price drop since 2010, continuing to decline
- **Efficiency:** Modern panels convert 20-22% of sunlight to electricity

**Financial Analysis:**
- Upfront cost: $15,000-25,000 (before incentives)
- Federal tax credit: 30% through 2032
- Payback period: 6-10 years depending on location
- 25-year warranty standard, systems last 30+ years

💨 **Wind Energy Options:**
- **Utility-scale:** Most cost-effective renewable source
- **Small residential:** Viable in rural areas with sustained winds >10 mph
- **Community wind:** Shared ownership models available

🔋 **Energy Storage Revolution:**
- Battery costs dropped 90% since 2010
- Home storage: 10-15 kWh systems ($10,000-15,000)
- Provides energy security and grid independence
- Time-of-use optimization saves additional money

📊 **Implementation Strategy:**
1. **Energy audit first** - optimize consumption before generation
2. **Assess your site** - solar irradiance, wind patterns, space
3. **Compare financing options** - purchase, lease, PPA, community solar
4. **Professional installation** - certified installers ensure performance
5. **Monitor and maintain** - systems require minimal maintenance

🌍 **Environmental Impact:**
- Typical home solar system prevents 100,000+ lbs CO2 over lifetime
- Equivalent to planting 2,500 trees"
  else
    "🌍 **Climate Action Intelligence Platform - Advanced Advisory**

Welcome to your personalized climate intelligence system! I'm powered by comprehensive climate data and designed to provide actionable environmental solutions.

**🎯 My Specialized Capabilities:**
- **Personal Carbon Footprint Analysis** with reduction strategies
- **Renewable Energy Assessment** tailored to your location
- **Business Sustainability Planning** with ROI calculations
- **Climate Risk Assessment** for homes and businesses
- **Local Climate Data Integration** for informed decisions

**📊 Current Integration Status:**
✅ Real-time weather and climate data
✅ Carbon footprint calculation APIs
✅ Renewable energy potential mapping
✅ Global emissions tracking
✅ Economic impact analysis
✅ Policy and incentive databases

**💡 Popular Queries I Excel At:**
- \"How can I reduce my carbon footprint by 30%?\"
- \"What's the ROI on solar panels for my location?\"
- \"Create a carbon neutrality plan for my business\"
- \"What climate risks does my area face?\"
- \"Compare electric vs. hybrid vehicles for my situation\"

**🔧 Enhanced Features:**
- Location-specific recommendations
- Cost-benefit analysis with real numbers
- Implementation timelines and milestones
- Progress tracking and impact measurement

*Ready to transform your climate impact? Ask me anything about sustainable living, renewable energy, or environmental action!*

**Note:** Currently operating in demonstration mode with comprehensive fallback intelligence. Full IBM Granite AI integration available with proper project configuration."

/-- `WatsonXClient.generate_response`: when the client runs in fallback mode, or
when the external model call (`collab`, modelling `self.model.generate_text`)
raises, the canned fallback is returned; otherwise the model output is cleaned
and a continuation marker is appended if it nearly fills `max_length`.  The
function itself never raises. -/
def generate_response_wx (use_fallback : Bool) (collab : Except String String)
    (prompt context : String) (max_length : Nat) : String :=
  if use_fallback then generate_fallback_response_wx prompt context
  else
    match collab with
    | .error _ => generate_fallback_response_wx prompt context
    | .ok response =>
        let cleaned := clean_response response
        if max_length - 50 ≤ cleaned.length then
          cleaned ++ "\n\n[Response continues... Ask for more details on specific aspects]"
        else cleaned

/-- Backend `ClimateRAGSystem._generate_fallback_response`: the template answer
returned when the whole retrieval-and-generation body raises. -/
def generate_fallback_response_rag (query : String) : String :=
  "I understand you're asking about: " ++ query ++ "

While I'm experiencing some technical difficulties accessing my knowledge base, here are some general climate action recommendations:

1. **Energy Efficiency**: Switch to LED lighting, improve insulation, use programmable thermostats
2. **Transportation**: Consider electric vehicles, public transit, cycling, or walking
3. **Renewable Energy**: Explore solar panels or renewable energy programs in your area
4. **Consumption**: Reduce, reuse, recycle; choose sustainable products
5. **Diet**: Consider reducing meat consumption and choosing local, seasonal foods

For specific advice tailored to your situation, please try asking again or consult local environmental organizations."

/-- Backend `ClimateRAGSystem.retrieve_and_generate`: retrieval (vectorstore
initialisation, query enhancement, and the MMR retriever — external libraries —
are modelled by the `retrieval` parameter) produces documents whose contents are
joined into the context; the watsonx client generates the answer (default
`max_length` 2000).  Any exception in that body is absorbed by the `except` arm,
which returns the template fallback and an empty source list. -/
def retrieve_and_generate (use_fallback : Bool) (collab : Except String String)
    (retrieval : Except String (List String)) (query : String) : String × List String :=
  match retrieval with
  | .error _ => (generate_fallback_response_rag query, [])
  | .ok docs =>
      let context := String.intercalate "\n\n" docs
      (generate_response_wx use_fallback collab query context 2000, docs)

/-! ## Properties of the rounding function -/

theorem ratFloor_eq (q : ℚ) : q.floor = ⌊q⌋ := by
  rw [Rat.floor_def', Rat.floor_def]

theorem roundHalfEven_intCast (n : ℤ) : roundHalfEven (n : ℚ) = n := by
  simp [roundHalfEven, ratFloor_eq, Int.floor_intCast]

theorem roundHalfEven_eq_of_lt_half (x : ℚ) (n : ℤ) (h1 : (n : ℚ) ≤ x) (h2 : x < n + 1/2) :
    roundHalfEven x = n := by
  have hfl : ⌊x⌋ = n := Int.floor_eq_iff.mpr ⟨h1, by linarith⟩
  simp only [roundHalfEven, ratFloor_eq, hfl]
  rw [if_pos (by linarith)]

theorem roundHalfEven_eq_of_gt_half (x : ℚ) (n : ℤ) (h1 : (n : ℚ) + 1/2 < x) (h2 : x < n + 1) :
    roundHalfEven x = n + 1 := by
  have hn : (n : ℚ) ≤ x := by linarith
  have hfl : ⌊x⌋ = n := Int.floor_eq_iff.mpr ⟨hn, by linarith⟩
  simp only [roundHalfEven, ratFloor_eq, hfl]
  rw [if_neg (by linarith), if_pos (by linarith)]

theorem roundHalfEven_eq_of_half (x : ℚ) (n : ℤ) (hx : x = n + 1/2) :
    roundHalfEven x = if n % 2 = 0 then n else n + 1 := by
  have hfl : ⌊x⌋ = n := Int.floor_eq_iff.mpr ⟨by rw [hx]; linarith, by rw [hx]; norm_num⟩
  simp only [roundHalfEven, ratFloor_eq, hfl]
  rw [if_neg (by rw [hx]; linarith), if_neg (by rw [hx]; linarith)]

theorem roundHalfEven_nonneg (x : ℚ) (hx : 0 ≤ x) : 0 ≤ roundHalfEven x := by
  have h0 : (0 : ℤ) ≤ ⌊x⌋ := Int.floor_nonneg.mpr hx
  simp only [roundHalfEven, ratFloor_eq]
  split_ifs <;> omega

theorem roundHalfEven_neg (x : ℚ) : roundHalfEven (-x) = -roundHalfEven x := by
  rcases eq_or_lt_of_le (Int.floor_le x) with heq | hlt
  · have hx : x = (⌊x⌋ : ℚ) := heq.symm
    rw [hx, ← Int.cast_neg, roundHalfEven_intCast, roundHalfEven_intCast]
  · have hub : x < ⌊x⌋ + 1 := Int.lt_floor_add_one x
    rcases lt_trichotomy (x - ⌊x⌋) (1/2) with hf | hf | hf
    · rw [roundHalfEven_eq_of_lt_half x ⌊x⌋ (Int.floor_le x) (by linarith),
        roundHalfEven_eq_of_gt_half (-x) (-⌊x⌋ - 1) (by push_cast; linarith)
          (by push_cast; linarith)]
      omega
    · rw [roundHalfEven_eq_of_half x ⌊x⌋ (by linarith),
        roundHalfEven_eq_of_half (-x) (-⌊x⌋ - 1) (by push_cast; linarith)]
      by_cases hev : ⌊x⌋ % 2 = 0
      · rw [if_pos hev, if_neg (by omega)]
        omega
      · rw [if_neg hev, if_pos (by omega)]
        omega
    · rw [roundHalfEven_eq_of_gt_half x ⌊x⌋ (by linarith) hub,
        roundHalfEven_eq_of_lt_half (-x) (-⌊x⌋ - 1) (by push_cast; linarith)
          (by push_cast; linarith)]
      omega

theorem isRound_zero (d : Nat) : IsRound d 0 := ⟨0, by simp⟩

theorem IsRound.add {d : Nat} {x y : ℚ} (hx : IsRound d x) (hy : IsRound d y) :
    IsRound d (x + y) := by
  obtain ⟨m, rfl⟩ := hx
  obtain ⟨m', rfl⟩ := hy
  exact ⟨m + m', by push_cast; ring⟩

theorem IsRound.neg {d : Nat} {x : ℚ} (hx : IsRound d x) : IsRound d (-x) := by
  obtain ⟨m, rfl⟩ := hx
  exact ⟨-m, by push_cast; ring⟩

theorem IsRound.abs {d : Nat} {x : ℚ} (hx : IsRound d x) : IsRound d |x| := by
  rcases abs_cases x with ⟨h, _⟩ | ⟨h, _⟩
  · rw [h]; exact hx
  · rw [h]; exact hx.neg

theorem isRound_sum {d : Nat} (l : List ℚ) (h : ∀ y ∈ l, IsRound d y) : IsRound d l.sum := by
  induction l with
  | nil => simpa using isRound_zero d
  | cons a l ih =>
    rw [List.sum_cons]
    exact (h a (List.mem_cons_self a l)).add (ih fun y hy => h y (List.mem_cons_of_mem a hy))

theorem roundTo_eq_self {d : Nat} {x : ℚ} (h : IsRound d x) : roundTo d x = x := by
  obtain ⟨m, rfl⟩ := h
  have h10 : ((10 : ℚ) ^ d) ≠ 0 := by positivity
  unfold roundTo
  rw [div_mul_cancel₀ _ h10, roundHalfEven_intCast]

theorem isRound_roundTo (d : Nat) (x : ℚ) : IsRound d (roundTo d x) :=
  ⟨roundHalfEven (x * 10 ^ d), rfl⟩

theorem roundTo_intCast (d : Nat) (m : ℤ) : roundTo d ((m : ℤ) : ℚ) = (m : ℚ) :=
  roundTo_eq_self ⟨m * 10 ^ d, by push_cast; field_simp⟩

theorem roundTo_idem (d : Nat) (x : ℚ) : roundTo d (roundTo d x) = roundTo d x :=
  roundTo_eq_self (isRound_roundTo d x)

theorem roundTo_nonneg (d : Nat) (x : ℚ) (hx : 0 ≤ x) : 0 ≤ roundTo d x := by
  unfold roundTo
  have h1 : (0 : ℤ) ≤ roundHalfEven (x * 10 ^ d) :=
    roundHalfEven_nonneg _ (by positivity)
  have h2 : (0 : ℚ) ≤ (roundHalfEven (x * 10 ^ d) : ℚ) := by exact_mod_cast h1
  positivity

theorem roundTo_neg (d : Nat) (x : ℚ) : roundTo d (-x) = -roundTo d x := by
  unfold roundTo
  rw [show -x * 10 ^ d = -(x * 10 ^ d) by ring, roundHalfEven_neg]
  push_cast
  ring

/-! ## Properties of `dedupKeys` and grouped sums -/

theorem mem_dedupKeysAux (a : String) (l : List String) : ∀ seen,
    a ∈ dedupKeysAux seen l ↔ a ∈ l ∧ a ∉ seen := by
  induction l with
  | nil => intro seen; simp [dedupKeysAux]
  | cons k ks ih =>
    intro seen
    by_cases hk : k ∈ seen
    · simp only [dedupKeysAux, if_pos hk, ih, List.mem_cons]
      constructor
      · rintro ⟨h1, h2⟩; exact ⟨Or.inr h1, h2⟩
      · rintro ⟨rfl | h1, h2⟩
        · exact absurd hk h2
        · exact ⟨h1, h2⟩
    · simp only [dedupKeysAux, if_neg hk, List.mem_cons, ih]
      constructor
      · rintro (rfl | ⟨h1, h2⟩)
        · exact ⟨Or.inl rfl, hk⟩
        · exact ⟨Or.inr h1, fun hs => h2 (Or.inr hs)⟩
      · rintro ⟨rfl | h1, h2⟩
        · exact Or.inl rfl
        · by_cases hak : a = k
          · exact Or.inl hak
          · refine Or.inr ⟨h1, fun hs => ?_⟩
            rcases hs with h | h
            · exact hak h
            · exact h2 h

theorem nodup_dedupKeysAux (l : List String) : ∀ seen, (dedupKeysAux seen l).Nodup := by
  induction l with
  | nil => intro seen; simp [dedupKeysAux]
  | cons k ks ih =>
    intro seen
    by_cases hk : k ∈ seen
    · simpa only [dedupKeysAux, if_pos hk] using ih seen
    · simp only [dedupKeysAux, if_neg hk]
      refine List.nodup_cons.mpr ⟨fun hmem => ?_, ih (k :: seen)⟩
      exact ((mem_dedupKeysAux k ks (k :: seen)).mp hmem).2 (List.mem_cons_self _ _)

theorem mem_dedupKeys (a : String) (l : List String) : a ∈ dedupKeys l ↔ a ∈ l := by
  simp [dedupKeys, mem_dedupKeysAux]

theorem nodup_dedupKeys (l : List String) : (dedupKeys l).Nodup := nodup_dedupKeysAux l []

theorem sum_ite_of_nodup (K : List String) (hK : K.Nodup) (a : String) (ha : a ∈ K) (c : ℚ) :
    (K.map (fun k => if a = k then c else 0)).sum = c := by
  induction K with
  | nil => cases ha
  | cons k ks ih =>
    rcases List.mem_cons.mp ha with rfl | ha'
    · have hnotin : a ∉ ks := (List.nodup_cons.mp hK).1
      have hz : (ks.map (fun k => if a = k then c else 0)).sum = 0 := by
        rw [List.sum_eq_zero]
        intro x hx
        rcases List.mem_map.mp hx with ⟨b, hb, rfl⟩
        have hne : a ≠ b := fun h => hnotin (h ▸ hb)
        simp [hne]
      simp [hz]
    · have hka : a ≠ k := by
        rintro rfl; exact (List.nodup_cons.mp hK).1 ha'
      simp [hka, ih (List.nodup_cons.mp hK).2 ha']

theorem sum_map_add (g h : String → ℚ) (K : List String) :
    (K.map (fun k => g k + h k)).sum = (K.map g).sum + (K.map h).sum := by
  induction K with
  | nil => simp
  | cons k ks ih => simp [ih]; ring

/-- Summing a function over the `GROUP BY` fibres of a complete, duplicate-free
key list recovers the sum over all rows. -/
theorem grouped_sum (f : ActionRecord → ℚ) (l : List ActionRecord) (K : List String)
    (hK : K.Nodup) (hmem : ∀ r ∈ l, r.action_type ∈ K) :
    (K.map (fun k => ((l.filter (fun r => r.action_type == k)).map f).sum)).sum
      = (l.map f).sum := by
  induction l with
  | nil =>
    rw [List.sum_eq_zero]
    · simp
    · intro x hx
      rcases List.mem_map.mp hx with ⟨k, _, rfl⟩
      simp
  | cons r l ih =>
    have hstep : ∀ k : String,
        (((r :: l).filter (fun r' => r'.action_type == k)).map f).sum
          = (if r.action_type = k then f r else 0)
            + ((l.filter (fun r' => r'.action_type == k)).map f).sum := by
      intro k
      by_cases hk : r.action_type = k
      · simp [List.filter_cons, hk]
      · simp [List.filter_cons, hk]
    calc (K.map (fun k => (((r :: l).filter (fun r' => r'.action_type == k)).map f).sum)).sum
        = (K.map (fun k => (if r.action_type = k then f r else 0)
            + ((l.filter (fun r' => r'.action_type == k)).map f).sum)).sum := by
          exact congrArg List.sum (List.map_congr_left fun k _ => hstep k)
      _ = (K.map (fun k => if r.action_type = k then f r else 0)).sum
            + (K.map (fun k => ((l.filter (fun r' => r'.action_type == k)).map f).sum)).sum :=
          sum_map_add _ _ K
      _ = f r + (l.map f).sum := by
          rw [sum_ite_of_nodup K hK r.action_type (hmem r (List.mem_cons_self r l)) (f r),
            ih fun r' hr' => hmem r' (List.mem_cons_of_mem r hr')]
      _ = ((r :: l).map f).sum := by simp

/-! ## Claims about the impact calculator and tracker -/

/-- C1: for every `action_type` and `quantity`, `_calculate_impact` returns
`co2 = round(base_factor * quantity, 3)` with the base factor looked up in the
static table (default `0.0` when absent); all four output fields are rounded to
3 decimal places; the function is total (it always returns a complete impact
tuple and can raise no error). -/
theorem C1_calculate_impact (action_type : String) (quantity : ℚ) :
    (calculate_impact action_type quantity).co2_impact
        = roundTo 3 (((impact_factors.lookup action_type).getD 0) * quantity)
      ∧ (impact_factors.lookup action_type = none →
          (calculate_impact action_type quantity).co2_impact = roundTo 3 (0 * quantity))
      ∧ IsRound 3 (calculate_impact action_type quantity).co2_impact
      ∧ IsRound 3 (calculate_impact action_type quantity).energy_impact
      ∧ IsRound 3 (calculate_impact action_type quantity).water_impact
      ∧ IsRound 3 (calculate_impact action_type quantity).waste_impact := by
  refine ⟨rfl, fun h => ?_, isRound_roundTo _ _, isRound_roundTo _ _, isRound_roundTo _ _,
    isRound_roundTo _ _⟩
  show roundTo 3 (((impact_factors.lookup action_type).getD 0) * quantity) = _
  rw [h]
  rfl

/-- Witness for C1 at a concrete unknown action type: the lookup misses and the
CO2 output is the rounded zero product. -/
theorem C1_witness :
    impact_factors.lookup "unknown_action" = none
      ∧ (calculate_impact "unknown_action" 2).co2_impact = roundTo 3 (0 * 2) :=
  ⟨by decide, (C1_calculate_impact "unknown_action" 2).2.1 (by decide)⟩

/-- Counterexample to C3 as stated: at exactly 10 kg of absolute CO2 impact the
source emits the "Amazing impact!" message, not the "Excellent!" one, so the
"Excellent" tier is not the inclusive interval [1, 10]. -/
theorem C3_counterexample :
    |(calculate_impact "car_trip_avoided" 25).co2_impact| = 10
      ∧ (track_action [] "u" "car_trip_avoided" 25 "mile" none none 0).2.message_tier
          = ImpactTier.amazing
      ∧ (track_action [] "u" "car_trip_avoided" 25 "mile" none none 0).2.message_tier
          ≠ ImpactTier.excellent := by
  have h1 : calculate_impact "car_trip_avoided" 25
      = { co2_impact := roundTo 3 ((2/5 : ℚ) * 25), energy_impact := roundTo 3 0,
          water_impact := roundTo 3 0, waste_impact := roundTo 3 0 } := rfl
  have himp : calculate_impact "car_trip_avoided" 25
      = { co2_impact := 10, energy_impact := 0, water_impact := 0, waste_impact := 0 } := by
    rw [h1, show ((2/5 : ℚ) * 25) = ((10 : ℤ) : ℚ) by norm_num,
      show (0 : ℚ) = ((0 : ℤ) : ℚ) by norm_num, roundTo_intCast, roundTo_intCast]
    norm_num
  have htier : (track_action [] "u" "car_trip_avoided" 25 "mile" none none 0).2.message_tier
      = generate_impact_message_tier (calculate_impact "car_trip_avoided" 25) := rfl
  have habs : |(calculate_impact "car_trip_avoided" 25).co2_impact| = 10 := by
    rw [himp]
    exact abs_of_nonneg (by norm_num)
  have hmsg : generate_impact_message_tier (calculate_impact "car_trip_avoided" 25)
      = ImpactTier.amazing := by
    simp only [generate_impact_message_tier, himp]
    rw [show |(10 : ℚ)| = 10 from abs_of_nonneg (by norm_num)]
    norm_num
  refine ⟨habs, by rw [htier, hmsg], by rw [htier, hmsg]; decide⟩

/-- C3 (amended): the encouragement message of `track_action` is tiered by the
magnitude of the rounded CO2 impact as: "every action counts" at 0, "Nice!" on
(0, 1), "Excellent!" on [1, 10) — the upper bound exclusive, not inclusive as
claimed — and "Amazing!" on [10, ∞). -/
theorem C3_message_tier (ledger : List ActionRecord) (u a : String) (q : ℚ)
    (un : String) (loc desc : Option String) (now : ℤ) :
    ((track_action ledger u a q un loc desc now).2.message_tier = ImpactTier.everyActionCounts
        ↔ |(calculate_impact a q).co2_impact| = 0)
      ∧ ((track_action ledger u a q un loc desc now).2.message_tier = ImpactTier.nice
        ↔ 0 < |(calculate_impact a q).co2_impact| ∧ |(calculate_impact a q).co2_impact| < 1)
      ∧ ((track_action ledger u a q un loc desc now).2.message_tier = ImpactTier.excellent
        ↔ 1 ≤ |(calculate_impact a q).co2_impact| ∧ |(calculate_impact a q).co2_impact| < 10)
      ∧ ((track_action ledger u a q un loc desc now).2.message_tier = ImpactTier.amazing
        ↔ 10 ≤ |(calculate_impact a q).co2_impact|) := by
  have htier : (track_action ledger u a q un loc desc now).2.message_tier
      = generate_impact_message_tier (calculate_impact a q) := rfl
  rw [htier]
  have habs : (0 : ℚ) ≤ |(calculate_impact a q).co2_impact| := abs_nonneg _
  simp only [generate_impact_message_tier]
  split_ifs with hz hlt1 hlt10
  · refine ⟨⟨fun _ => hz, fun _ => rfl⟩, ⟨fun h => (nomatch h), ?_⟩,
      ⟨fun h => (nomatch h), ?_⟩, ⟨fun h => (nomatch h), ?_⟩⟩
    · rintro ⟨hp, _⟩; exfalso; linarith
    · rintro ⟨hp, _⟩; exfalso; linarith
    · intro hp; exfalso; linarith
  · have hpos : (0 : ℚ) < |(calculate_impact a q).co2_impact| := habs.lt_of_ne (Ne.symm hz)
    refine ⟨⟨fun h => (nomatch h), fun h => absurd h hz⟩, ⟨fun _ => ⟨hpos, hlt1⟩, fun _ => rfl⟩,
      ⟨fun h => (nomatch h), ?_⟩, ⟨fun h => (nomatch h), ?_⟩⟩
    · rintro ⟨hle, _⟩; exfalso; linarith
    · intro hle; exfalso; linarith
  · have hge1 : (1 : ℚ) ≤ |(calculate_impact a q).co2_impact| := not_lt.mp hlt1
    refine ⟨⟨fun h => (nomatch h), fun h => absurd h hz⟩,
      ⟨fun h => (nomatch h), ?_⟩, ⟨fun _ => ⟨hge1, hlt10⟩, fun _ => rfl⟩,
      ⟨fun h => (nomatch h), ?_⟩⟩
    · rintro ⟨_, hb⟩; exfalso; linarith
    · intro hle; exfalso; linarith
  · have hge10 : (10 : ℚ) ≤ |(calculate_impact a q).co2_impact| := not_lt.mp hlt10
    refine ⟨⟨fun h => (nomatch h), fun h => absurd h hz⟩,
      ⟨fun h => (nomatch h), ?_⟩, ⟨fun h => (nomatch h), ?_⟩, ⟨fun _ => hge10, fun _ => rfl⟩⟩
    · rintro ⟨_, hb⟩; exfalso; linarith
    · rintro ⟨_, hb⟩; exfalso; linarith

/-- Counterexample to C5 as stated: a `track_action` call with the negative
quantity −5 does not fail with any error — the action is recorded in the ledger
with its computed impact (−0.4 kg/mile × −5 = +2 kg) and a normal result is
returned. -/
theorem C5_counterexample :
    (track_action [] "u" "bike_trip" (-5) "mile" none none 0).1
        = [{ user_id := "u", action_type := "bike_trip", description := none, quantity := -5,
             unit := "mile", co2_impact := 2, energy_impact := 0, water_impact := 0,
             waste_impact := 0, location := none, timestamp := 0 }]
      ∧ (track_action [] "u" "bike_trip" (-5) "mile" none none 0).2.quantity = -5 := by
  have h1 : calculate_impact "bike_trip" (-5)
      = { co2_impact := roundTo 3 (-(2/5 : ℚ) * (-5)), energy_impact := roundTo 3 0,
          water_impact := roundTo 3 0, waste_impact := roundTo 3 0 } := rfl
  have himp : calculate_impact "bike_trip" (-5)
      = { co2_impact := 2, energy_impact := 0, water_impact := 0, waste_impact := 0 } := by
    rw [h1, show (-(2/5 : ℚ) * (-5)) = ((2 : ℤ) : ℚ) by norm_num,
      show (0 : ℚ) = ((0 : ℤ) : ℚ) by norm_num, roundTo_intCast, roundTo_intCast]
    norm_num
  constructor
  · simp only [track_action, himp]
    rfl
  · rfl

/-- C5 (amended): `track_action` performs no quantity validation — a call with a
negative quantity is accepted: the ledger grows by exactly the new record, whose
quantity is the negative input and whose CO2 impact is the rounded product of the
looked-up factor and that quantity; no `InvalidInputError` exists in the source
and no error is surfaced. -/
theorem C5_track_action_negative (ledger : List ActionRecord) (u a : String) (q : ℚ)
    (un : String) (loc desc : Option String) (now : ℤ) (_hq : q < 0) :
    ((track_action ledger u a q un loc desc now).1).length = ledger.length + 1
      ∧ ∃ r : ActionRecord,
          (track_action ledger u a q un loc desc now).1 = ledger ++ [r]
          ∧ r.quantity = q
          ∧ r.co2_impact = roundTo 3 (((impact_factors.lookup a).getD 0) * q) := by
  exact ⟨by simp [track_action], ⟨_, rfl, rfl, rfl⟩⟩

/-- Witness for C5 (amended) at quantity −5 of a `bike_trip`. -/
theorem C5_witness :
    ((track_action [] "u" "bike_trip" (-5) "mile" none none 0).1).length
        = ([] : List ActionRecord).length + 1
      ∧ ∃ r : ActionRecord,
          (track_action [] "u" "bike_trip" (-5) "mile" none none 0).1 = [] ++ [r]
          ∧ r.quantity = -5
          ∧ r.co2_impact = roundTo 3 (((impact_factors.lookup "bike_trip").getD 0) * (-5)) :=
  C5_track_action_negative [] "u" "bike_trip" (-5) "mile" none none 0 (by norm_num)

/-- C9: every goal reported by `get_user_goals_progress` has
`progress_percentage = round(current / target * 100, 1)` when the target is
positive and `0` when the target is zero; the division guard makes the
zero-target case return 0 rather than raise. -/
theorem C9_goal_progress (goals : List Goal) (u : String) (gp : GoalProgress)
    (hmem : gp ∈ get_user_goals_progress goals u) :
    (0 < gp.target_value →
        gp.progress_percentage = roundTo 1 (gp.current_value / gp.target_value * 100))
      ∧ (gp.target_value = 0 → gp.progress_percentage = 0) := by
  unfold get_user_goals_progress at hmem
  rcases List.mem_map.mp hmem with ⟨g, hg, rfl⟩
  dsimp only
  constructor
  · intro hpos
    unfold goal_progress_percentage
    rw [if_pos hpos]
  · intro h0
    unfold goal_progress_percentage
    rw [if_neg (by rw [h0]; exact lt_irrefl 0)]

/-- Witness for C9 at one concrete active goal with positive target 2 and one
with target 0. -/
theorem C9_witness :
    (goal_progress_percentage 5 2 = roundTo 1 ((5 : ℚ) / 2 * 100))
      ∧ (goal_progress_percentage 5 0 = 0) :=
  ⟨(C9_goal_progress
      [{ goal_id := 1, user_id := "u", goal_type := "co2", target_value := 2,
         current_value := 5, unit := "kg", deadline := "2026-01-01", status := "active" }] "u"
      { goal_id := 1, goal_type := "co2", target_value := 2, current_value := 5,
        unit := "kg", deadline := "2026-01-01", status := "active",
        progress_percentage := goal_progress_percentage 5 2 }
      (List.mem_singleton.mpr rfl)).1 (by norm_num),
   (C9_goal_progress
      [{ goal_id := 2, user_id := "u", goal_type := "co2", target_value := 0,
         current_value := 5, unit := "kg", deadline := "2026-01-01", status := "active" }] "u"
      { goal_id := 2, goal_type := "co2", target_value := 0, current_value := 5,
        unit := "kg", deadline := "2026-01-01", status := "active",
        progress_percentage := goal_progress_percentage 5 0 }
      (List.mem_singleton.mpr rfl)).2 rfl⟩

/-! ## Claims about the impact summary -/

theorem summaryTotalCo2_eq_sum (ledger : List ActionRecord) (u : String) (start : ℤ)
    (h : ∀ r ∈ summaryFiltered ledger u start, IsRound 3 r.co2_impact) :
    summaryTotalCo2 ledger u start
      = ((summaryFiltered ledger u start).map (·.co2_impact)).sum := by
  have hkey : ∀ k ∈ summaryKeys ledger u start,
      ((fun g : ActionGroupSummary => g.co2_impact)
          ∘ groupSummary (summaryFiltered ledger u start)) k
        = (((summaryFiltered ledger u start).filter
            (fun r => r.action_type == k)).map (fun r : ActionRecord => r.co2_impact)).sum := by
    intro k _
    show roundTo 3 _ = _
    refine roundTo_eq_self (isRound_sum _ ?_)
    intro y hy
    rcases List.mem_map.mp hy with ⟨r, hr, rfl⟩
    exact h r (List.mem_of_mem_filter hr)
  unfold summaryTotalCo2 summaryBreakdown
  rw [List.map_map, List.map_congr_left hkey]
  exact grouped_sum (·.co2_impact) (summaryFiltered ledger u start)
    (summaryKeys ledger u start) (nodup_dedupKeys _)
    (fun r hr => (mem_dedupKeys _ _).mpr (List.mem_map_of_mem (·.action_type) hr))

/-- C4 (amended): over any window whose records carry 3-decimal CO2 values (as
every stored record does, `_calculate_impact` having rounded them), the reported
`co2_saved_kg` equals the absolute value of the exact sum of the window records'
`co2_impact` values — not the signed sum, which the source folds through
`abs()` — and `trees_equivalent = round(abs(total)/22, 1)`, likewise from the
absolute total. -/
theorem C4_summary_total (ledger : List ActionRecord) (u : String) (start : ℤ)
    (h : ∀ r ∈ summaryFiltered ledger u start, IsRound 3 r.co2_impact) :
    (get_user_impact_summary ledger u start).total_impact.co2_saved_kg
        = |((summaryFiltered ledger u start).map (·.co2_impact)).sum|
      ∧ (get_user_impact_summary ledger u start).equivalent_impact.trees_equivalent
        = roundTo 1 (|((summaryFiltered ledger u start).map (·.co2_impact)).sum| / 22) := by
  have htot := summaryTotalCo2_eq_sum ledger u start h
  constructor
  · show roundTo 3 |summaryTotalCo2 ledger u start| = _
    rw [htot]
    refine roundTo_eq_self (IsRound.abs (isRound_sum _ ?_))
    intro y hy
    rcases List.mem_map.mp hy with ⟨r, hr, rfl⟩
    exact h r hr
  · show roundTo 1 (|summaryTotalCo2 ledger u start| / 22) = _
    rw [htot]

theorem filter_map_negCo2 (p : ActionRecord → Bool) (hp : ∀ r, p (negCo2 r) = p r)
    (l : List ActionRecord) :
    (l.map negCo2).filter p = (l.filter p).map negCo2 := by
  induction l with
  | nil => rfl
  | cons r l ih =>
    simp only [List.map_cons, List.filter_cons, hp r]
    by_cases hc : p r = true
    · simp [hc, ih]
    · simp [hc, ih]

theorem sum_map_neg {α : Type} (f : α → ℚ) (l : List α) :
    (l.map fun r => -(f r)).sum = -((l.map f).sum) := by
  induction l with
  | nil => simp
  | cons a l ih => simp [ih]; ring

theorem summaryFiltered_negCo2 (ledger : List ActionRecord) (u : String) (start : ℤ) :
    summaryFiltered (ledger.map negCo2) u start
      = (summaryFiltered ledger u start).map negCo2 :=
  filter_map_negCo2 (inPeriod u start) (fun _ => rfl) ledger

theorem summaryKeys_negCo2 (ledger : List ActionRecord) (u : String) (start : ℤ) :
    summaryKeys (ledger.map negCo2) u start = summaryKeys ledger u start := by
  unfold summaryKeys
  rw [summaryFiltered_negCo2, List.map_map]
  rfl

theorem groupSummary_negCo2_co2 (l : List ActionRecord) (k : String) :
    (groupSummary (l.map negCo2) k).co2_impact = -(groupSummary l k).co2_impact := by
  show roundTo 3 _ = -roundTo 3 _
  rw [show group_for (l.map negCo2) k = (group_for l k).map negCo2 from
      filter_map_negCo2 (fun r => r.action_type == k) (fun _ => rfl) l,
    List.map_map,
    show ((·.co2_impact) ∘ negCo2) = (fun r : ActionRecord => -(r.co2_impact)) from rfl,
    sum_map_neg, roundTo_neg]

theorem summaryTotalCo2_negCo2 (ledger : List ActionRecord) (u : String) (start : ℤ) :
    summaryTotalCo2 (ledger.map negCo2) u start = -summaryTotalCo2 ledger u start := by
  unfold summaryTotalCo2 summaryBreakdown
  rw [summaryKeys_negCo2, summaryFiltered_negCo2, List.map_map, List.map_map]
  rw [List.map_congr_left (fun k _ => show ((·.co2_impact) ∘ groupSummary ((summaryFiltered ledger u start).map negCo2)) k = -(((·.co2_impact) ∘ groupSummary (summaryFiltered ledger u start)) k) from groupSummary_negCo2_co2 _ k)]
  exact sum_map_neg (fun k => (groupSummary (summaryFiltered ledger u start) k).co2_impact) _

theorem calculate_equivalents_neg (c : ℚ) :
    calculate_equivalents (-c) = calculate_equivalents c := by
  simp [calculate_equivalents, abs_neg]

/-- C10: all CO2 figures reported by `get_user_impact_summary` under
`total_impact.co2_saved_kg` and `equivalent_impact` are non-negative, and a
ledger whose per-record CO2 impacts are negated (net emissions of the same
magnitude as net savings) is reported with identical `co2_saved_kg` and
identical equivalents, because both are computed from the absolute value of the
net CO2 total. -/
theorem C10_summary_abs (ledger : List ActionRecord) (u : String) (start : ℤ) :
    0 ≤ (get_user_impact_summary ledger u start).total_impact.co2_saved_kg
      ∧ 0 ≤ (get_user_impact_summary ledger u start).equivalent_impact.trees_equivalent
      ∧ 0 ≤ (get_user_impact_summary ledger u start).equivalent_impact.car_miles_avoided
      ∧ 0 ≤ (get_user_impact_summary ledger u start).equivalent_impact.lightbulb_hours
      ∧ 0 ≤ (get_user_impact_summary ledger u start).equivalent_impact.smartphone_charges
      ∧ 0 ≤ (get_user_impact_summary ledger u start).equivalent_impact.plastic_bottles_recycled
      ∧ (get_user_impact_summary (ledger.map negCo2) u start).total_impact.co2_saved_kg
          = (get_user_impact_summary ledger u start).total_impact.co2_saved_kg
      ∧ (get_user_impact_summary (ledger.map negCo2) u start).equivalent_impact
          = (get_user_impact_summary ledger u start).equivalent_impact := by
  refine ⟨?_, ?_, ?_, ?_, ?_, ?_, ?_, ?_⟩
  · exact roundTo_nonneg 3 _ (abs_nonneg _)
  · exact roundTo_nonneg 1 _ (div_nonneg (abs_nonneg _) (by norm_num))
  · exact roundTo_nonneg 1 _ (div_nonneg (abs_nonneg _) (by norm_num))
  · exact roundTo_nonneg 0 _ (div_nonneg (abs_nonneg _) (by norm_num))
  · exact roundTo_nonneg 0 _ (div_nonneg (abs_nonneg _) (by norm_num))
  · exact roundTo_nonneg 0 _ (div_nonneg (abs_nonneg _) (by norm_num))
  · show roundTo 3 |summaryTotalCo2 (ledger.map negCo2) u start|
        = roundTo 3 |summaryTotalCo2 ledger u start|
    rw [summaryTotalCo2_negCo2, abs_neg]
  · show calculate_equivalents (summaryTotalCo2 (ledger.map negCo2) u start)
        = calculate_equivalents (summaryTotalCo2 ledger u start)
    rw [summaryTotalCo2_negCo2, calculate_equivalents_neg]

/-- Counterexample to C4 as stated: a window containing one `tree_planted`
record (stored CO2 impact −22 kg) has signed sum −22, but the summary reports
`co2_saved_kg = 22` (the absolute value) and `trees_equivalent = 1`, where the
claim's formula `round(total_co2/22, 1)` yields −1. -/
theorem C4_counterexample :
    (get_user_impact_summary
        [{ user_id := "u", action_type := "tree_planted", description := none, quantity := 1,
           unit := "tree", co2_impact := -22, energy_impact := 0, water_impact := 0,
           waste_impact := 0, location := none, timestamp := 5 }] "u" 0).total_impact.co2_saved_kg
        = 22
      ∧ ((summaryFiltered
        [{ user_id := "u", action_type := "tree_planted", description := none, quantity := 1,
           unit := "tree", co2_impact := -22, energy_impact := 0, water_impact := 0,
           waste_impact := 0, location := none, timestamp := 5 }] "u" 0).map (·.co2_impact)).sum
        = -22
      ∧ (get_user_impact_summary
        [{ user_id := "u", action_type := "tree_planted", description := none, quantity := 1,
           unit := "tree", co2_impact := -22, energy_impact := 0, water_impact := 0,
           waste_impact := 0, location := none, timestamp := 5 }] "u" 0).equivalent_impact.trees_equivalent
        = 1
      ∧ roundTo 1 (((summaryFiltered
        [{ user_id := "u", action_type := "tree_planted", description := none, quantity := 1,
           unit := "tree", co2_impact := -22, energy_impact := 0, water_impact := 0,
           waste_impact := 0, location := none, timestamp := 5 }] "u" 0).map (·.co2_impact)).sum / 22)
        = -1
      ∧ (22 : ℚ) ≠ -22 ∧ (1 : ℚ) ≠ -1 := by
  have htot : summaryTotalCo2
      [{ user_id := "u", action_type := "tree_planted", description := none, quantity := 1,
         unit := "tree", co2_impact := -22, energy_impact := 0, water_impact := 0,
         waste_impact := 0, location := none, timestamp := 5 }] "u" 0 = -22 := by
    have h1 : summaryTotalCo2
        [{ user_id := "u", action_type := "tree_planted", description := none, quantity := 1,
           unit := "tree", co2_impact := -22, energy_impact := 0, water_impact := 0,
           waste_impact := 0, location := none, timestamp := 5 }] "u" 0
        = roundTo 3 ((-22) + 0) + 0 := rfl
    rw [h1, show ((-22 : ℚ) + 0) = ((-22 : ℤ) : ℚ) by norm_num, roundTo_intCast]
    norm_num
  have hsum : ((summaryFiltered
      [{ user_id := "u", action_type := "tree_planted", description := none, quantity := 1,
         unit := "tree", co2_impact := -22, energy_impact := 0, water_impact := 0,
         waste_impact := 0, location := none, timestamp := 5 }] "u" 0).map (·.co2_impact)).sum
      = -22 := by
    have h2 : summaryFiltered
        [{ user_id := "u", action_type := "tree_planted", description := none, quantity := 1,
           unit := "tree", co2_impact := -22, energy_impact := 0, water_impact := 0,
           waste_impact := 0, location := none, timestamp := 5 }] "u" 0
        = [{ user_id := "u", action_type := "tree_planted", description := none,
             quantity := 1, unit := "tree", co2_impact := -22, energy_impact := 0,
             water_impact := 0, waste_impact := 0, location := none, timestamp := 5 }] := rfl
    rw [h2]
    simp
  refine ⟨?_, hsum, ?_, ?_, by norm_num, by norm_num⟩
  · show roundTo 3 |summaryTotalCo2 _ "u" 0| = 22
    rw [htot, show |(-22 : ℚ)| = ((22 : ℤ) : ℚ) by norm_num, roundTo_intCast]
    norm_num
  · show roundTo 1 (|summaryTotalCo2 _ "u" 0| / 22) = 1
    rw [htot, show |(-22 : ℚ)| / 22 = ((1 : ℤ) : ℚ) by norm_num, roundTo_intCast]
    norm_num
  · rw [hsum, show ((-22 : ℚ) / 22) = ((-1 : ℤ) : ℚ) by norm_num, roundTo_intCast]
    norm_num

/-- Witness for C4 (amended) on a one-record window whose stored CO2 value
−0.4 is a 3-decimal value. -/
theorem C4_witness :
    (∀ r ∈ summaryFiltered
        [{ user_id := "u", action_type := "bike_trip", description := none, quantity := 1,
           unit := "mile", co2_impact := -(2/5), energy_impact := 0, water_impact := 0,
           waste_impact := 0, location := none, timestamp := 3 }] "u" 0, IsRound 3 r.co2_impact)
      ∧ ((get_user_impact_summary
            [{ user_id := "u", action_type := "bike_trip", description := none, quantity := 1,
               unit := "mile", co2_impact := -(2/5), energy_impact := 0, water_impact := 0,
               waste_impact := 0, location := none, timestamp := 3 }] "u" 0).total_impact.co2_saved_kg
          = |((summaryFiltered
            [{ user_id := "u", action_type := "bike_trip", description := none, quantity := 1,
               unit := "mile", co2_impact := -(2/5), energy_impact := 0, water_impact := 0,
               waste_impact := 0, location := none, timestamp := 3 }] "u" 0).map (·.co2_impact)).sum|
        ∧ (get_user_impact_summary
            [{ user_id := "u", action_type := "bike_trip", description := none, quantity := 1,
               unit := "mile", co2_impact := -(2/5), energy_impact := 0, water_impact := 0,
               waste_impact := 0, location := none, timestamp := 3 }] "u" 0).equivalent_impact.trees_equivalent
          = roundTo 1 (|((summaryFiltered
            [{ user_id := "u", action_type := "bike_trip", description := none, quantity := 1,
               unit := "mile", co2_impact := -(2/5), energy_impact := 0, water_impact := 0,
               waste_impact := 0, location := none, timestamp := 3 }] "u" 0).map (·.co2_impact)).sum| / 22)) := by
  have hround : ∀ r ∈ summaryFiltered
      [{ user_id := "u", action_type := "bike_trip", description := none, quantity := 1,
         unit := "mile", co2_impact := -(2/5), energy_impact := 0, water_impact := 0,
         waste_impact := 0, location := none, timestamp := 3 }] "u" 0, IsRound 3 r.co2_impact := by
    intro r hr
    rcases List.mem_singleton.mp hr with rfl
    exact ⟨-400, by norm_num⟩
  exact ⟨hround, C4_summary_total _ "u" 0 hround⟩

/-! ## Claims about the RAG variants -/

/-- Counterexample to C6 as stated: calling the backend `add_documents` before
any initialisation (no vectorstore, nothing persisted) raises nothing — it
auto-initialises from the seed corpus and performs the addition. -/
theorem C6_counterexample :
    (add_documents_backend id [{ page_content := "new doc", source := "user", category := "general" }]
        { persisted := none, vectorstore := none }).vectorstore
        = some (sample_climate_documents
            ++ [{ page_content := "new doc", source := "user", category := "general" }])
      ∧ (add_documents_backend id [{ page_content := "new doc", source := "user", category := "general" }]
        { persisted := none, vectorstore := none }).persisted
        = some (sample_climate_documents
            ++ [{ page_content := "new doc", source := "user", category := "general" }]) :=
  ⟨rfl, rfl⟩

/-- C6 (amended): a backend `add_documents` call made before `initialize` first
initialises the vectorstore itself (loading the persisted store, or building the
seed corpus), then appends the new chunks and persists; no
`IndexNotInitializedError` exists and nothing is raised. -/
theorem C6_add_documents_auto_init (split : List BDocument → List BDocument)
    (documents : List BDocument) (st : BackendRagState) (h : st.vectorstore = none) :
    ∃ base : List BDocument,
      (initialize_vectorstore_backend split none st).vectorstore = some base
        ∧ (add_documents_backend split documents st).vectorstore
            = some (base ++ split documents)
        ∧ (add_documents_backend split documents st).persisted
            = some (base ++ split documents) := by
  cases hp : st.persisted with
  | some idx =>
      refine ⟨idx, ?_, ?_, ?_⟩ <;>
        simp [add_documents_backend, initialize_vectorstore_backend, h, hp]
  | none =>
      refine ⟨split sample_climate_documents, ?_, ?_, ?_⟩ <;>
        simp [add_documents_backend, initialize_vectorstore_backend, h, hp]

/-- Witness for C6 (amended): a state with a persisted store but no loaded
vectorstore; `add_documents` loads it and appends. -/
theorem C6_witness :
    ∃ base : List BDocument,
      (initialize_vectorstore_backend id none
          { persisted := some [{ page_content := "persisted", source := "s", category := "c" }],
            vectorstore := none }).vectorstore = some base
        ∧ (add_documents_backend id [{ page_content := "added", source := "s", category := "c" }]
            { persisted := some [{ page_content := "persisted", source := "s", category := "c" }],
              vectorstore := none }).vectorstore
            = some (base ++ id [{ page_content := "added", source := "s", category := "c" }])
        ∧ (add_documents_backend id [{ page_content := "added", source := "s", category := "c" }]
            { persisted := some [{ page_content := "persisted", source := "s", category := "c" }],
              vectorstore := none }).persisted
            = some (base ++ id [{ page_content := "added", source := "s", category := "c" }]) :=
  C6_add_documents_auto_init id [{ page_content := "added", source := "s", category := "c" }]
    { persisted := some [{ page_content := "persisted", source := "s", category := "c" }],
      vectorstore := none } rfl

/-- C7: a document section whose content does not exceed the configured maximum
chunk size (default 1000) is emitted as exactly one chunk whose text is the
section content, for any splitter — the splitter is never invoked. -/
theorem C7_single_chunk (split_text : String → List String) (chunk_size : Nat)
    (s : DocSection) (h : s.content.length ≤ chunk_size) :
    processSection split_text chunk_size s
      = [{ page_content := s.content,
           metadata := { source := "Climate Action Intelligence Platform README",
                         section_name := s.title, level := s.level,
                         doc_type := classify_section s.title,
                         chunk_id := none, total_chunks := none } }] := by
  unfold processSection
  rw [if_neg (not_lt.mpr h)]

/-- Witness for C7 on a 14-character section with the default 1000-character
chunk size. -/
theorem C7_witness :
    ("Short section." : String).length ≤ 1000
      ∧ processSection (fun _ => []) 1000
          { title := "Overview", content := "Short section.", level := 1 }
        = [{ page_content := "Short section.",
             metadata := { source := "Climate Action Intelligence Platform README",
                           section_name := "Overview", level := 1,
                           doc_type := classify_section "Overview",
                           chunk_id := none, total_chunks := none } }] :=
  ⟨by decide, C7_single_chunk (fun _ => []) 1000
    { title := "Overview", content := "Short section.", level := 1 } (by decide)⟩

/-- C8: when a persisted index exists and `force_rebuild` is not set, the app
variant's `initialize_vectorstore` only loads the existing index: the persisted
contents are unchanged, the loaded vectorstore equals them, and no rebuild (no
re-chunking, no re-embedding) happens — the build flag is `false`.  Since any
successful call leaves a persisted index behind, a second call without
`force_rebuild` is exactly such a load. -/
theorem C8_initialize_idempotent (split_text : String → List String) (chunk_size : Nat)
    (readme : Option (List DocSection)) (documents : Option (List LCDocument))
    (st : AppRagState) (idx : List LCDocument) (h : st.persisted = some idx) :
    initialize_vectorstore_app split_text chunk_size readme documents false st
      = .ok ({ st with vectorstore := some idx, retriever := true }, false) := by
  unfold initialize_vectorstore_app
  rw [h]
  rfl

/-- Witness for C8 at a concrete one-document persisted index. -/
theorem C8_witness :
    initialize_vectorstore_app (fun _ => []) 1000 none none false
        { persisted :=
            some [{ page_content := "d",
                    metadata := { source := "s", section_name := "t", level := 1,
                                  doc_type := "general", chunk_id := none,
                                  total_chunks := none } }],
          vectorstore := none, retriever := false }
      = .ok ({ persisted :=
                 some [{ page_content := "d",
                         metadata := { source := "s", section_name := "t", level := 1,
                                       doc_type := "general", chunk_id := none,
                                       total_chunks := none } }],
               vectorstore :=
                 some [{ page_content := "d",
                         metadata := { source := "s", section_name := "t", level := 1,
                                       doc_type := "general", chunk_id := none,
                                       total_chunks := none } }],
               retriever := true }, false) :=
  C8_initialize_idempotent (fun _ => []) 1000 none none
    { persisted :=
        some [{ page_content := "d",
                metadata := { source := "s", section_name := "t", level := 1,
                              doc_type := "general", chunk_id := none,
                              total_chunks := none } }],
      vectorstore := none, retriever := false }
    [{ page_content := "d",
       metadata := { source := "s", section_name := "t", level := 1,
                     doc_type := "general", chunk_id := none, total_chunks := none } }] rfl

/-! ## Claim about the retrieval-and-generation fallback -/

theorem wx_fallback_ne_empty (p c : String) : generate_fallback_response_wx p c ≠ "" := by
  simp only [generate_fallback_response_wx]
  split_ifs <;> decide

theorem rag_fallback_ne_empty (q : String) : generate_fallback_response_rag q ≠ "" := by
  unfold generate_fallback_response_rag
  intro hcontra
  have hlen := congrArg String.length hcontra
  rw [String.length_append, String.length_append] at hlen
  have hpos : 0 < ("I understand you're asking about: " : String).length := by decide
  simp only [String.length_empty] at hlen
  omega

/-- C2: whenever the external text-generation collaborator raises or returns the
empty string, `retrieve_and_generate` returns a non-empty answer — either the
watsonx canned fallback, the RAG template fallback, or the fixed apology that
`_clean_response` substitutes for an empty model output — and (being total here
exactly because every exception arm of the source is a fallback, not a
re-raise) never propagates an error to its caller. -/
theorem C2_retrieve_and_generate_fallback (use_fallback : Bool)
    (collab : Except String String) (retrieval : Except String (List String))
    (query : String)
    (h : collab = .ok "" ∨ ∃ e, collab = .error e) :
    (retrieve_and_generate use_fallback collab retrieval query).1 ≠ ""
      ∧ ((retrieve_and_generate use_fallback collab retrieval query).1
            = generate_fallback_response_rag query
        ∨ (∃ ctx, (retrieve_and_generate use_fallback collab retrieval query).1
            = generate_fallback_response_wx query ctx)
        ∨ (retrieve_and_generate use_fallback collab retrieval query).1
            = clean_response "") := by
  cases retrieval with
  | error e =>
      exact ⟨rag_fallback_ne_empty query, Or.inl rfl⟩
  | ok docs =>
      have hpair : (retrieve_and_generate use_fallback collab (.ok docs) query).1
          = generate_response_wx use_fallback collab query
              (String.intercalate "\n\n" docs) 2000 := rfl
      rw [hpair]
      cases use_fallback with
      | true =>
          exact ⟨wx_fallback_ne_empty _ _, Or.inr (Or.inl ⟨_, rfl⟩)⟩
      | false =>
          rcases h with hok | ⟨e, herr⟩
          · subst hok
            have hcl : generate_response_wx false (.ok "") query
                (String.intercalate "\n\n" docs) 2000 = clean_response "" := by
              have hc : ¬(2000 - 50 ≤ (clean_response "").length) := by decide
              simp only [generate_response_wx, if_neg hc]
              rfl
            rw [hcl]
            exact ⟨by decide, Or.inr (Or.inr rfl)⟩
          · subst herr
            exact ⟨wx_fallback_ne_empty _ _, Or.inr (Or.inl ⟨_, rfl⟩)⟩

/-- Witness for C2: a failing collaborator call on a successful retrieval. -/
theorem C2_witness :
    (retrieve_and_generate false (.error "boom") (.ok ["doc1"]) "q").1 ≠ ""
      ∧ ((retrieve_and_generate false (.error "boom") (.ok ["doc1"]) "q").1
            = generate_fallback_response_rag "q"
        ∨ (∃ ctx, (retrieve_and_generate false (.error "boom") (.ok ["doc1"]) "q").1
            = generate_fallback_response_wx "q" ctx)
        ∨ (retrieve_and_generate false (.error "boom") (.ok ["doc1"]) "q").1
            = clean_response "") :=
  C2_retrieve_and_generate_fallback false (.error "boom") (.ok ["doc1"]) "q"
    (Or.inr ⟨"boom", rfl⟩)
